import Mathlib

/-!
# Verification of the batch onboarding orchestrator (`onboarder.py`)

Shallow embedding of the core of `src/onboarder.py`:

* `get_mist_commands` — retrieval of the shared onboarding command set from
  the Mist API (`onboarder.py` lines 104–133).  The HTTP interaction is
  abstracted as an `ApiResponse` value: either the network call itself
  raised, or a response arrived with a status code and a body whose
  `cmd` field is either a well-formed string or malformed (`none`).
* `send_commands` — the per-device orchestration loop
  (`onboarder.py` lines 139–172).  Remote device behaviour is abstracted
  as a session oracle `Device → SessionResult`: the whole
  `ConnectHandler / find_prompt / send_config_set / commit` lifecycle
  either succeeds or raises an exception with a message.  The loop is
  embedded with an explicit state (`LoopState`) recording the `statuses`
  list being built, every device for which a session was attempted, and
  the commands variable, so that frame and isolation properties can be
  stated.
* `statusTrace` — the successive values taken by the per-device `status`
  dictionary inside the loop body, for temporal claims.
* `runMain` — the `__main__` block (lines 175–185): retrieval followed by
  `send_commands`, with a retrieval failure propagating and aborting the
  run before any device session.
-/

namespace Onboarder

/-- One inventory row (`onboarder.py` lines 63–67): the CSV columns plus
the `device_type` tag added by `parse_arguments`. -/
structure Device where
  ip : String
  username : String
  password : String
  device_type : String
  deriving DecidableEq

/-- Outcome of one device's full session lifecycle
(`ConnectHandler`, `find_prompt`, `send_config_set`, `commit`,
lines 157–162): either every phase succeeds, or some phase raises an
exception whose message (`str(e)`) is `msg`. -/
inductive SessionResult where
  | ok : SessionResult
  | err (msg : String) : SessionResult
  deriving DecidableEq

/-- `isOk r` is true when the session lifecycle succeeded. -/
def SessionResult.isOk : SessionResult → Bool
  | .ok => true
  | .err _ => false

/-- The per-device status dictionary built at lines 150–154. -/
structure DeviceStatus where
  device : String
  status : String
  error : Option String
  deriving DecidableEq

/-- Python `s.split('\n')` on the underlying character list: split on
every newline, keeping empty pieces, so the result always has one more
piece than there are newlines. -/
def splitNL : List Char → List (List Char)
  | [] => [[]]
  | c :: rest =>
    match splitNL rest with
    | [] => if c = '\n' then [[], []] else [[c]]
    | p :: ps => if c = '\n' then [] :: p :: ps else (c :: p) :: ps

/-- Re-join pieces with a newline between consecutive pieces; inverse of
`splitNL`. -/
def joinNL : List (List Char) → List Char
  | [] => []
  | [x] => x
  | x :: xs => x ++ '\n' :: joinNL xs

/-- Python `s.split('\n')` at the `String` level (line 122). -/
def splitNewline (s : String) : List String :=
  (splitNL s.data).map String.mk

/-- Abstraction of the interaction at line 119: either `requests.get`
itself raised (`netErr`), or a response arrived with `status_code` and a
body; `body = some s` means `res.json()['cmd']` evaluates to the string
`s`, `body = none` means the body is malformed (JSON decoding or the
`cmd` key lookup raises). -/
inductive ApiResponse where
  | netErr (msg : String) : ApiResponse
  | response (status_code : Nat) (body : Option String) : ApiResponse
  deriving DecidableEq

/-- `get_mist_commands` (lines 104–133): on a 200 response with a
well-formed body return `cmd.split('\n')`; on any other status raise
`ConnectionError("Status code: ...")` (re-raised by the handler at line
133); a network failure or malformed body likewise escapes as the
re-raised exception. -/
def get_mist_commands (res : ApiResponse) : Except String (List String) :=
  match res with
  | .netErr e => .error e
  | .response code body =>
    if code = 200 then
      match body with
      | some cmd => .ok (splitNewline cmd)
      | none => .error "malformed response body"
    else
      .error ("Status code: " ++ toString code)

lemma splitNL_ne_nil (l : List Char) : splitNL l ≠ [] := by
  cases l with
  | nil => simp [splitNL]
  | cons c rest =>
    simp only [splitNL]
    split <;> split <;> simp

lemma joinNL_cons_cons (c : Char) (p : List Char) (ps : List (List Char)) :
    joinNL ((c :: p) :: ps) = c :: joinNL (p :: ps) := by
  cases ps with
  | nil => rfl
  | cons q qs => simp [joinNL]

lemma joinNL_splitNL (l : List Char) : joinNL (splitNL l) = l := by
  induction l with
  | nil => rfl
  | cons c rest ih =>
    simp only [splitNL]
    rcases h : splitNL rest with _ | ⟨p, ps⟩
    · exact absurd h (splitNL_ne_nil rest)
    · rw [h] at ih
      by_cases hc : c = '\n'
      · subst hc
        simp [joinNL, ih]
      · simp only [if_neg hc]
        rw [joinNL_cons_cons, ih]

lemma splitNL_no_newline (l : List Char) :
    ∀ p ∈ splitNL l, '\n' ∉ p := by
  induction l with
  | nil => simp [splitNL]
  | cons c rest ih =>
    simp only [splitNL]
    rcases h : splitNL rest with _ | ⟨p, ps⟩
    · exact absurd h (splitNL_ne_nil rest)
    · rw [h] at ih
      by_cases hc : c = '\n'
      · subst hc
        simp only [if_pos rfl]
        intro q hq
        rcases List.mem_cons.mp hq with rfl | hq2
        · exact List.not_mem_nil _
        · exact ih q hq2
      · simp only [if_neg hc]
        intro q hq
        rcases List.mem_cons.mp hq with rfl | hq2
        · intro hmem
          rcases List.mem_cons.mp hmem with h1 | h1
          · exact hc h1.symm
          · exact ih p (List.mem_cons.mpr (Or.inl rfl)) h1
        · exact ih q (List.mem_cons.mpr (Or.inr hq2))

/-- The status dictionary as first created for a device
(lines 150–154): `{"device": device['ip'], "status": "pending",
"error": None}`. -/
def initStatus (d : Device) : DeviceStatus :=
  { device := d.ip, status := "pending", error := none }

/-- The final value of a device's status dictionary after the
`try`/`except` block (lines 156–170): `status['status'] = "success"` on
lifecycle success, `status['status'] = "failed"` and
`status['error'] = str(e)` when the lifecycle raised `e`. -/
def processDevice (session : Device → SessionResult) (d : Device) :
    DeviceStatus :=
  match session d with
  | .ok => { initStatus d with status := "success" }
  | .err e => { initStatus d with status := "failed", error := some e }

/-- The successive values taken by one device's status dictionary
during the loop body: created as pending (line 150), then on success one
assignment `status['status'] = "success"` (line 164), and on failure the
two assignments `status['status'] = "failed"` then
`status['error'] = str(e)` (lines 168–169). -/
def statusTrace (session : Device → SessionResult) (d : Device) :
    List DeviceStatus :=
  match session d with
  | .ok => [initStatus d, { initStatus d with status := "success" }]
  | .err e =>
      [initStatus d,
       { initStatus d with status := "failed" },
       { initStatus d with status := "failed", error := some e }]

/-- `s.status` is a terminal outcome. -/
def terminal (s : DeviceStatus) : Bool :=
  s.status == "success" || s.status == "failed"

/-- Once an entry of a trace carries a terminal outcome, every later
entry carries the same outcome (no reversal, no second transition). -/
def monotoneTrace : List DeviceStatus → Bool
  | [] => true
  | s :: rest =>
      (if terminal s then rest.all (fun t => t.status == s.status) else true)
      && monotoneTrace rest

/-- The mutable state of the loop in `send_commands` (lines 147–172):
the `statuses` list being built (line 148), the commands argument
`cmds`, and — for stating isolation — the list of devices for which a
session was attempted, i.e. for which the loop body reached the
`ConnectHandler` call at line 157 (every iteration does). -/
structure LoopState where
  statuses : List DeviceStatus
  attempted : List Device
  cmds : List String
  deriving DecidableEq

/-- The `for device in devices` loop of `send_commands`
(lines 149–171).  On success the status dictionary is appended
(line 171); on an exception the handler runs `continue` (line 170),
which jumps to the next iteration **before** the append at line 171, so
the failed status is dropped from `statuses`. -/
def send_commandsLoop (session : Device → SessionResult) :
    List Device → LoopState → LoopState
  | [], st => st
  | d :: rest, st =>
    match session d with
    | .ok =>
        send_commandsLoop session rest
          { st with
            statuses := st.statuses ++ [processDevice session d],
            attempted := st.attempted ++ [d] }
    | .err _ =>
        send_commandsLoop session rest
          { st with attempted := st.attempted ++ [d] }

/-- `send_commands` (lines 139–172): run the loop starting from the
empty `statuses` list and return the final `statuses` list. -/
def send_commands (session : Device → SessionResult)
    (devices : List Device) (cmds : List String) : List DeviceStatus :=
  (send_commandsLoop session devices
    { statuses := [], attempted := [], cmds := cmds }).statuses

/-- The `__main__` block (lines 175–185): retrieve the command set, then
run `send_commands` over the inventory.  `get_mist_commands` is called
outside any handler, so a retrieval error propagates and the run ends
before `send_commands` is ever invoked.  The result pairs the outcome of
the run with the list of devices for which a session was attempted. -/
def runMain (res : ApiResponse) (session : Device → SessionResult)
    (devices : List Device) :
    Except String (List DeviceStatus) × List Device :=
  match get_mist_commands res with
  | .error e => (.error e, [])
  | .ok cmds =>
      let fin := send_commandsLoop session devices
        { statuses := [], attempted := [], cmds := cmds }
      (.ok fin.statuses, fin.attempted)

/-- Sample inventory rows, as in the CSV example of the script header. -/
def dev0 : Device :=
  { ip := "192.168.0.2", username := "super_user",
    password := "MyPassw0rd!", device_type := "juniper" }

def dev1 : Device :=
  { ip := "192.168.0.3", username := "super_user",
    password := "MyPassw0rd!", device_type := "juniper" }

lemma send_commandsLoop_attempted (session : Device → SessionResult)
    (devices : List Device) (st : LoopState) :
    (send_commandsLoop session devices st).attempted
      = st.attempted ++ devices := by
  induction devices generalizing st with
  | nil => simp [send_commandsLoop]
  | cons d rest ih =>
    simp only [send_commandsLoop]
    cases session d <;> simp [ih]

lemma send_commandsLoop_cmds (session : Device → SessionResult)
    (devices : List Device) (st : LoopState) :
    (send_commandsLoop session devices st).cmds = st.cmds := by
  induction devices generalizing st with
  | nil => simp [send_commandsLoop]
  | cons d rest ih =>
    simp only [send_commandsLoop]
    cases session d <;> simp [ih]

lemma send_commandsLoop_statuses (session : Device → SessionResult)
    (devices : List Device) (st : LoopState) :
    (send_commandsLoop session devices st).statuses
      = st.statuses
        ++ (devices.filter (fun d => (session d).isOk)).map
             (fun d => { device := d.ip, status := "success", error := none }) := by
  induction devices generalizing st with
  | nil => simp [send_commandsLoop]
  | cons d rest ih =>
    simp only [send_commandsLoop]
    cases h : session d with
    | ok =>
        rw [ih]
        simp [List.filter_cons, h, SessionResult.isOk, processDevice,
          initStatus]
    | err e =>
        rw [ih]
        simp [List.filter_cons, h, SessionResult.isOk]

/-- A session oracle under which every device's lifecycle raises. -/
def sessConnectFail : Device → SessionResult :=
  fun _ => SessionResult.err "Connection refused"

/-- A session oracle under which exactly the device at address
`192.168.0.3` fails and every other device succeeds. -/
def sessFailB : Device → SessionResult :=
  fun d =>
    if d.ip = "192.168.0.3" then SessionResult.err "connect: auth failure"
    else SessionResult.ok

/-- C6: `get_mist_commands` returns a command set exactly when the
network call produced a response with the success status 200 and a
well-formed body; in every other case — network failure, non-200
status, malformed body — it raises instead. -/
theorem get_mist_commands_ok_iff (res : ApiResponse) :
    (∃ cmds, get_mist_commands res = Except.ok cmds)
      ↔ ∃ s, res = ApiResponse.response 200 (some s) := by
  cases res with
  | netErr e => simp [get_mist_commands]
  | response code body =>
    by_cases hc : code = 200
    · subst hc
      cases body with
      | none => simp [get_mist_commands]
      | some s => simp [get_mist_commands]
    · simp [get_mist_commands, hc]

/-- C7: on a 200 response whose body holds the command script `s`,
`get_mist_commands` returns exactly the split of `s` on newline
boundaries: joining the returned pieces with a newline between
consecutive pieces restores `s` character for character (so nothing is
filtered, trimmed, or reordered, and empty lines are kept), and no
returned piece contains a newline (so every newline boundary is split
on). -/
theorem get_mist_commands_splits_on_newlines (s : String) :
    get_mist_commands (ApiResponse.response 200 (some s))
        = Except.ok (splitNewline s)
    ∧ joinNL ((splitNewline s).map String.data) = s.data
    ∧ ((splitNewline s).all
        (fun part => part.data.all (fun c => !(c == '\n')))) = true := by
  refine ⟨rfl, ?_, ?_⟩
  · have hdata : (splitNewline s).map String.data = splitNL s.data := by
      rw [splitNewline, List.map_map]
      show List.map id (splitNL s.data) = splitNL s.data
      exact List.map_id _
    rw [hdata, joinNL_splitNL]
  · rw [List.all_eq_true]
    intro part hpart
    rcases List.mem_map.mp hpart with ⟨p, hp, rfl⟩
    rw [List.all_eq_true]
    intro c hc
    have hnn := splitNL_no_newline s.data p hp
    have hne : c ≠ '\n' := fun h => hnn (h ▸ hc)
    simpa using hne

/-- C10: splitting a string on newlines always yields at least one
piece, so on any 200 response `get_mist_commands` returns a non-empty
list; in particular an empty command-script body yields the one-element
list containing the empty string. -/
theorem get_mist_commands_result_nonempty (s : String) :
    1 ≤ (splitNewline s).length
    ∧ get_mist_commands (ApiResponse.response 200 (some s))
        = Except.ok (splitNewline s)
    ∧ get_mist_commands (ApiResponse.response 200 (some ""))
        = Except.ok [""] := by
  refine ⟨?_, rfl, rfl⟩
  have h := List.length_pos.mpr (splitNL_ne_nil s.data)
  simpa [splitNewline] using h

/-- C4: each device's status dictionary is created with outcome
`pending` (and no error) before the session begins; every later value
of it carries a terminal outcome (`success` or `failed`); once a value
is terminal every later value carries the same outcome (the status
transitions at most once and never reverts); and the final outcome is
`success` exactly on lifecycle success and `failed` exactly on a raised
error. -/
theorem status_lifecycle (session : Device → SessionResult) (d : Device) :
    (statusTrace session d).head? = some (initStatus d)
    ∧ (initStatus d).status = "pending"
    ∧ (initStatus d).error = none
    ∧ ((statusTrace session d).tail.all terminal) = true
    ∧ monotoneTrace (statusTrace session d) = true
    ∧ (statusTrace session d).getLast?.map DeviceStatus.status
        = some (match session d with
            | SessionResult.ok => "success"
            | SessionResult.err _ => "failed") := by
  cases h : session d <;>
    simp [statusTrace, h, initStatus, terminal, monotoneTrace,
      List.getLast?]

/-- C5: the final value of a device's status dictionary is determined
by the session outcome: on lifecycle success it records outcome
`success` and no error; on a raised error it records outcome `failed`
and carries the exception's message `str(e)` verbatim in its error
field. -/
theorem per_device_status_content (session : Device → SessionResult)
    (d : Device) :
    processDevice session d
      = (match session d with
          | SessionResult.ok =>
              { device := d.ip, status := "success", error := none }
          | SessionResult.err e =>
              { device := d.ip, status := "failed", error := some e })
    ∧ (statusTrace session d).getLast? = some (processDevice session d) := by
  cases h : session d <;>
    simp [processDevice, statusTrace, h, initStatus, List.getLast?]

/-- C2: when any device's session raises at any phase, the error is
caught inside the loop body: the loop still attempts a session for
every device of the inventory (in order), the failing device's status
dictionary ends as `failed` carrying the error detail, and
`send_commands` still returns normally — no device-scoped error escapes
it or terminates the batch. -/
theorem device_failure_isolated (session : Device → SessionResult)
    (devices : List Device) (cmds : List String) (d : Device) (e : String)
    (hmem : d ∈ devices) (hf : session d = SessionResult.err e) :
    (send_commandsLoop session devices
        { statuses := [], attempted := [], cmds := cmds }).attempted = devices
    ∧ processDevice session d
        = { device := d.ip, status := "failed", error := some e } := by
  constructor
  · simpa using send_commandsLoop_attempted session devices
      { statuses := [], attempted := [], cmds := cmds }
  · simp [processDevice, hf, initStatus]

/-- Witness for C2: in the two-device inventory `[dev0, dev1]` where
only `dev1`'s connect fails, both devices are attempted and `dev1`'s
status carries the failure detail. -/
theorem device_failure_isolated_witness :
    dev1 ∈ [dev0, dev1]
    ∧ sessFailB dev1 = SessionResult.err "connect: auth failure"
    ∧ ((send_commandsLoop sessFailB [dev0, dev1]
          { statuses := [], attempted := [],
            cmds := ["set system host-name sw1"] }).attempted = [dev0, dev1]
        ∧ processDevice sessFailB dev1
            = { device := "192.168.0.3", status := "failed",
                error := some "connect: auth failure" }) :=
  ⟨by decide, by decide,
    device_failure_isolated sessFailB [dev0, dev1]
      ["set system host-name sw1"] dev1 "connect: auth failure"
      (by decide) (by decide)⟩

/-- C3: when command-set retrieval fails, the run ends with that single
fatal error and the list of devices for which a session was attempted
is empty — `send_commands` is never reached for any device. -/
theorem retrieval_failure_aborts_run (res : ApiResponse)
    (session : Device → SessionResult) (devices : List Device) (e : String)
    (hfail : get_mist_commands res = Except.error e) :
    runMain res session devices = (Except.error e, []) := by
  simp [runMain, hfail]

/-- Witness for C3: a network failure during retrieval aborts the run
over a two-device inventory with zero session attempts. -/
theorem retrieval_failure_aborts_run_witness :
    get_mist_commands (ApiResponse.netErr "connection timed out")
        = Except.error "connection timed out"
    ∧ runMain (ApiResponse.netErr "connection timed out")
        (fun _ => SessionResult.ok) [dev0, dev1]
        = (Except.error "connection timed out", []) :=
  ⟨rfl,
    retrieval_failure_aborts_run (ApiResponse.netErr "connection timed out")
      (fun _ => SessionResult.ok) [dev0, dev1] "connection timed out" rfl⟩

/-- C8: a full run of the `send_commands` loop leaves the commands
variable exactly as it was passed in, whatever the inventory and the
per-device outcomes: the command set is never mutated. -/
theorem send_commands_never_mutates_cmds (session : Device → SessionResult)
    (devices : List Device) (cmds : List String) :
    (send_commandsLoop session devices
        { statuses := [], attempted := [], cmds := cmds }).cmds = cmds :=
  send_commandsLoop_cmds session devices
    { statuses := [], attempted := [], cmds := cmds }

/-- C9: the list returned by `send_commands` consists exactly of one
`success` entry (with no error) per device whose session lifecycle
succeeded, in input order: failed devices contribute no entry, so the
returned length is the number of successful devices. -/
theorem send_commands_only_successes (session : Device → SessionResult)
    (devices : List Device) (cmds : List String) :
    send_commands session devices cmds
      = (devices.filter (fun d => (session d).isOk)).map
          (fun d => { device := d.ip, status := "success", error := none }) := by
  simp [send_commands, send_commandsLoop_statuses]

/-- C1 (source defect, spec §9): for the one-device inventory `[dev0]`
whose session raises, `send_commands` returns the empty list — the
`continue` in the handler skips the append — instead of one entry for
the one input device. -/
theorem failed_device_dropped_from_report :
    send_commands sessConnectFail [dev0] ["set system host-name sw1"] = []
    ∧ [dev0].length = 1 :=
  ⟨rfl, rfl⟩

end Onboarder
